import Mathlib

/-!
Shallow embedding of `src/connections/twitter_connection.py` (class
`TwitterConnection`).

The Python module is a thin client around the Twitter REST API.  We model:

* the process environment (`os.getenv` results) as a record of
  `Option String` fields, with Python truthiness (`None` and `""` are falsy);
* the HTTP transport as an oracle `ApiCall → HttpResponse` supplied by the
  world; every function returns, besides its `Except` result, the ordered
  list of API calls it issued (its network trace);
* Python exceptions as an explicit error type `PyError`, with one
  constructor per distinct `raise` site of the module;
* the interactive `configure` flow as a function of the console inputs and
  of the outcome of each fallible OAuth step, returning the ordered list of
  `set_key` writes to the `.env` store.
-/

set_option autoImplicit false

namespace Twitter

/-- Python truthiness of an `os.getenv` result: `None` and the empty
string are falsy, everything else truthy. -/
def truthy : Option String → Bool
  | none => false
  | some s => !(s == "")

/-- The six environment fields the module reads
(`TWITTER_CONSUMER_KEY`, `TWITTER_CONSUMER_SECRET`, `TWITTER_ACCESS_TOKEN`,
`TWITTER_ACCESS_TOKEN_SECRET`, `TWITTER_USERNAME`, `TWITTER_USER_ID`). -/
structure Env where
  consumerKey : Option String
  consumerSecret : Option String
  accessToken : Option String
  accessTokenSecret : Option String
  username : Option String
  userId : Option String
deriving DecidableEq, Repr

/-- Python exceptions raised by the module, one constructor per `raise`
site (the generic `Exception(f"Request returned an error: {status} {text}")`
is `requestError status text`, `ValueError(msg)` is `valueError msg`,
`Exception(f"Unknown action: {name}")` is `unknownAction name`,
`Exception(f"No user found for username: {u}")` is `noUserFound u`, and the
wrapper `Exception(f"Failed to get user ID for username {u}: {e}")` in
`get_latest_tweets` is `lookupFailed u e`; a Python `TypeError` from binding
`**kwargs` against a handler missing a required argument is `typeError`). -/
inductive PyError where
  | valueError (msg : String)
  | requestError (status : Nat) (body : String)
  | noUserFound (username : String)
  | lookupFailed (username : String) (inner : PyError)
  | unknownAction (name : String)
  | typeError (msg : String)
deriving DecidableEq, Repr

/-- The API requests the module can issue, identified by endpoint and by the
request parameters that vary per call (constant parameter fields such as
`tweet.fields` or `exclude` are fixed strings in the source and omitted). -/
inductive ApiCall where
  | usersBy (usernames : String)
  | userTweets (userId : String) (maxResults : Int)
  | postTweet (text : String)
  | homeTimeline (userId : String) (maxResults : Int)
  | likeCreate (userId : String) (tweetId : String)
deriving DecidableEq, Repr

/-- A user object of the API (`id`, `name`, `username` fields). -/
structure TLUser where
  id : String
  name : String
  username : String
deriving DecidableEq, Repr

/-- A tweet object of the API as the module reads it (`id`, `text`,
`author_id` fields). -/
structure TLTweet where
  id : String
  text : String
  author_id : String
deriving DecidableEq, Repr

/-- An HTTP response as seen by the module: the status code, the raw
`response.text`, and the parsed JSON body projected onto the shapes the
module actually reads (`data` as a tweet list, `data` as a user list,
`includes.users`, and the whole parsed body kept abstract as `rawBody`). -/
structure HttpResponse where
  status : Nat
  text : String := ""
  tweets : List TLTweet := []
  dataUsers : List TLUser := []
  includesUsers : List TLUser := []
  rawBody : String := ""
deriving DecidableEq, Repr

/-- The cached `OAuth1Session` of the adapter: the four secrets it was
built from. -/
structure OAuthSession where
  consumerKey : String
  consumerSecret : String
  accessToken : String
  accessTokenSecret : String
deriving DecidableEq, Repr

/-- The `all([consumer_key, consumer_secret, access_token,
access_token_secret])` check of `_get_oauth`: the four OAuth secrets are
present and non-empty. -/
def fourPresent (env : Env) : Bool :=
  truthy env.consumerKey && truthy env.consumerSecret &&
    truthy env.accessToken && truthy env.accessTokenSecret

/-- `_get_oauth`: return the cached session if any, otherwise build one from
the four environment secrets, raising `ValueError` if any is missing or
empty. -/
def getOauth (sess : Option OAuthSession) (env : Env) :
    Except PyError OAuthSession :=
  match sess with
  | some s => .ok s
  | none =>
    if fourPresent env then
      .ok { consumerKey := env.consumerKey.getD ""
            consumerSecret := env.consumerSecret.getD ""
            accessToken := env.accessToken.getD ""
            accessTokenSecret := env.accessTokenSecret.getD "" }
    else
      .error (.valueError "Missing required Twitter credentials in environment")

/-- `post_tweet(message)`: reject messages longer than 280 characters before
any network activity; otherwise issue one POST to the tweet-create endpoint,
returning the parsed body on status 201 and raising a request error
otherwise.  The second component is the network trace. -/
def post_tweet (sess : Option OAuthSession) (env : Env) (message : String)
    (http : ApiCall → HttpResponse) :
    Except PyError String × List ApiCall :=
  if message.length > 280 then
    (.error (.valueError "Tweet exceeds 280 character limit"), [])
  else
    match getOauth sess env with
    | .error e => (.error e, [])
    | .ok _ =>
      let call := ApiCall.postTweet message
      let resp := http call
      if resp.status ≠ 201 then
        (.error (.requestError resp.status resp.text), [call])
      else
        (.ok resp.rawBody, [call])

/-- `get_user_id_from_username(username)`: GET the user-lookup-by-username
endpoint; raise a request error on non-200, raise `No user found` when the
`data` array is missing or empty, otherwise return `data[0]["id"]`. -/
def get_user_id_from_username (sess : Option OAuthSession) (env : Env)
    (username : String) (http : ApiCall → HttpResponse) :
    Except PyError String × List ApiCall :=
  match getOauth sess env with
  | .error e => (.error e, [])
  | .ok _ =>
    let call := ApiCall.usersBy username
    let resp := http call
    if resp.status ≠ 200 then
      (.error (.requestError resp.status resp.text), [call])
    else
      match resp.dataUsers with
      | [] => (.error (.noUserFound username), [call])
      | u :: _ => (.ok u.id, [call])

/-- `get_latest_tweets(username, count)`: resolve the username to an id
(wrapping any failure, credential errors included, as a lookup failure),
then GET the user-tweets endpoint with `max_results = min(count, 100)`;
raise a request error on non-200, otherwise return the `data` tweet list
(defaulting to empty). -/
def get_latest_tweets (sess : Option OAuthSession) (env : Env)
    (username : String) (count : Int) (http : ApiCall → HttpResponse) :
    Except PyError (List TLTweet) × List ApiCall :=
  match get_user_id_from_username sess env username http with
  | (.error e, tr) => (.error (.lookupFailed username e), tr)
  | (.ok uid, tr) =>
    let call := ApiCall.userTweets uid (min count 100)
    let resp := http call
    if resp.status ≠ 200 then
      (.error (.requestError resp.status resp.text), tr ++ [call])
    else
      (.ok resp.tweets, tr ++ [call])

/-- The dict comprehension of `read_timeline`
(`{user['id']: {'name': ..., 'username': ...} for user in user_info}`)
followed by lookup of key `a`: iterate the user list in order, a later user
with the same id overwriting an earlier one, then look the key up. -/
def userDictGet (users : List TLUser) (a : String) : Option TLUser :=
  users.foldl (fun acc u => if u.id = a then some u else acc) none

/-- A timeline item as `read_timeline` returns it: the tweet dict with the
added `author_name` / `author_username` entries. -/
structure TLTweetOut where
  tweet : TLTweet
  author_name : String
  author_username : String
deriving DecidableEq, Repr

/-- The per-tweet join of `read_timeline`: take the author's name and handle
from the user dict, or `"Unknown"` / `"Unknown"` when the author id is not a
key of it. -/
def annotateTweet (users : List TLUser) (t : TLTweet) : TLTweetOut :=
  match userDictGet users t.author_id with
  | some u => { tweet := t, author_name := u.name, author_username := u.username }
  | none => { tweet := t, author_name := "Unknown", author_username := "Unknown" }

/-- `read_timeline(count)`: raise `ValueError` when `TWITTER_USER_ID` is
missing or empty; otherwise GET the home-timeline endpoint with
`max_results = count` (no cap), raise a request error on non-200, and
otherwise return the tweets joined with their authors from
`includes.users`. -/
def read_timeline (sess : Option OAuthSession) (env : Env) (count : Int)
    (http : ApiCall → HttpResponse) :
    Except PyError (List TLTweetOut) × List ApiCall :=
  if truthy env.userId = false then
    (.error (.valueError "TWITTER_USER_ID not found in environment variables."), [])
  else
    match getOauth sess env with
    | .error e => (.error e, [])
    | .ok _ =>
      let call := ApiCall.homeTimeline (env.userId.getD "") count
      let resp := http call
      if resp.status ≠ 200 then
        (.error (.requestError resp.status resp.text), [call])
      else
        (.ok (resp.tweets.map (annotateTweet resp.includesUsers)), [call])

/-- `like_tweet(tweet_id)`: raise `ValueError` when `TWITTER_USER_ID` is
missing or empty; otherwise POST to the like-create endpoint, raise a
request error on non-200, and otherwise return the parsed body. -/
def like_tweet (sess : Option OAuthSession) (env : Env) (tweet_id : String)
    (http : ApiCall → HttpResponse) :
    Except PyError String × List ApiCall :=
  if truthy env.userId = false then
    (.error (.valueError "TWITTER_USER_ID not found in environment variables."), [])
  else
    match getOauth sess env with
    | .error e => (.error e, [])
    | .ok _ =>
      let call := ApiCall.likeCreate (env.userId.getD "") tweet_id
      let resp := http call
      if resp.status ≠ 200 then
        (.error (.requestError resp.status resp.text), [call])
      else
        (.ok resp.rawBody, [call])

/-- The keyword arguments passed to `perform_action`; each field is `none`
when the corresponding key is absent from `kwargs`. -/
structure Kwargs where
  username : Option String := none
  count : Option Int := none
  message : Option String := none
  tweet_id : Option String := none
deriving DecidableEq, Repr

/-- The value a registry handler returns, tagged by its shape. -/
inductive ActionResult where
  | tweets (ts : List TLTweet)
  | timeline (ts : List TLTweetOut)
  | raw (body : String)
deriving DecidableEq, Repr

/-- Wrap a handler's result into the `perform_action` result type. -/
def liftResult {α : Type} (f : α → ActionResult) :
    Except PyError α × List ApiCall →
      Except PyError ActionResult × List ApiCall
  | (.ok a, tr) => (.ok (f a), tr)
  | (.error e, tr) => (.error e, tr)

/-- The keys of the `self.actions` registry dict, in order. -/
def actionNames : List String :=
  ["get-latest-tweets", "post-tweet", "read-timeline", "like-tweet"]

/-- `perform_action(action_name, **kwargs)`: look the name up in the
registry and invoke the registered handler with the keyword arguments
(`count` defaulting to 10; a required argument missing from `kwargs` makes
the call itself raise `TypeError` before the handler body runs); raise
`Unknown action` when the name is not registered. -/
def perform_action (sess : Option OAuthSession) (env : Env) (name : String)
    (kw : Kwargs) (http : ApiCall → HttpResponse) :
    Except PyError ActionResult × List ApiCall :=
  if name = "get-latest-tweets" then
    match kw.username with
    | none => (.error (.typeError "missing required argument: username"), [])
    | some u =>
      liftResult ActionResult.tweets
        (get_latest_tweets sess env u (kw.count.getD 10) http)
  else if name = "post-tweet" then
    match kw.message with
    | none => (.error (.typeError "missing required argument: message"), [])
    | some m =>
      liftResult ActionResult.raw (post_tweet sess env m http)
  else if name = "read-timeline" then
    liftResult ActionResult.timeline
      (read_timeline sess env (kw.count.getD 10) http)
  else if name = "like-tweet" then
    match kw.tweet_id with
    | none => (.error (.typeError "missing required argument: tweet_id"), [])
    | some t =>
      liftResult ActionResult.raw (like_tweet sess env t http)
  else
    (.error (.unknownAction name), [])

/-- An observable step of `is_configured`: reading one credential field from
the environment, or issuing the live `client.get_me()` validation call. -/
inductive CfgEvent where
  | readField (key : String)
  | validationCall
deriving DecidableEq, Repr

/-- `is_configured(verbose)`: `False` when the `.env` file does not exist;
otherwise read the five credential fields, `False` when any is missing or
empty; otherwise issue the `get_me` validation call, `True` exactly when it
succeeds and `False` (never an exception — the function is total into
`Bool`) when it raises.  The second component is the ordered trace of field
reads and validation calls performed.  `getMe` is the outcome of the live
validation call the world would give. -/
def is_configured (envFileExists : Bool) (env : Env)
    (getMe : Except PyError Unit) : Bool × List CfgEvent :=
  if envFileExists = false then
    (false, [])
  else
    let reads : List CfgEvent :=
      [.readField "TWITTER_CONSUMER_KEY", .readField "TWITTER_CONSUMER_SECRET",
       .readField "TWITTER_ACCESS_TOKEN", .readField "TWITTER_ACCESS_TOKEN_SECRET",
       .readField "TWITTER_USER_ID"]
    if !(truthy env.consumerKey && truthy env.consumerSecret &&
          truthy env.accessToken && truthy env.accessTokenSecret &&
          truthy env.userId) then
      (false, reads)
    else
      match getMe with
      | .ok _ => (true, reads ++ [.validationCall])
      | .error _ => (false, reads ++ [.validationCall])

deriving instance DecidableEq for Except

/-- The inputs of one run of `configure`: the console answers and the
outcome the world gives to each fallible OAuth step.  `requestTokenStep` is
`fetch_request_token` (its `ValueError` is caught and printed, any other
exception reaches the outer handler; both abort), `authorizeStep` is the
authorization-URL display plus the PIN prompt and yields the verifier,
`accessTokenStep` is `fetch_access_token` and yields the access token and
secret, `userIdStep` is `get_user_id_from_username(username)`. -/
structure ConfigureInputs where
  alreadyConfigured : Bool
  reconfigureAnswer : String
  username : String
  consumerKey : String
  consumerSecret : String
  requestTokenStep : Except PyError (String × String)
  authorizeStep : Except PyError String
  accessTokenStep : Except PyError (String × String)
  userIdStep : Except PyError String
deriving DecidableEq, Repr

/-- The six `.env` keys `configure` persists, in the order of its `set_key`
calls. -/
def envKeys : List String :=
  ["TWITTER_USERNAME", "TWITTER_USER_ID", "TWITTER_CONSUMER_KEY",
   "TWITTER_CONSUMER_SECRET", "TWITTER_ACCESS_TOKEN",
   "TWITTER_ACCESS_TOKEN_SECRET"]

/-- `configure()`: the ordered list of `set_key` writes one run performs.
If the connection is already configured and the reconfigure answer,
lowercased, is not `"y"`, return with no writes.  Any exception during the
request-token, authorize or access-token steps returns with no writes
(every step runs inside the one `try` of the source, before any `set_key`).
A failing user-id lookup does not abort: the raw username is substituted
for the id.  On reaching the persist step all six fields are written
(the `set_key` writes themselves are modelled as succeeding). -/
def configureWrites (inp : ConfigureInputs) : List (String × String) :=
  if inp.alreadyConfigured && !(inp.reconfigureAnswer.toLower == "y") then
    []
  else
    match inp.requestTokenStep with
    | .error _ => []
    | .ok _ =>
      match inp.authorizeStep with
      | .error _ => []
      | .ok _ =>
        match inp.accessTokenStep with
        | .error _ => []
        | .ok (tok, sec) =>
          let uid :=
            match inp.userIdStep with
            | .ok u => u
            | .error _ => inp.username
          [("TWITTER_USERNAME", inp.username),
           ("TWITTER_USER_ID", uid),
           ("TWITTER_CONSUMER_KEY", inp.consumerKey),
           ("TWITTER_CONSUMER_SECRET", inp.consumerSecret),
           ("TWITTER_ACCESS_TOKEN", tok),
           ("TWITTER_ACCESS_TOKEN_SECRET", sec)]

/-! Concrete fixtures used to exercise the definitions. -/

/-- An environment holding only the four OAuth secrets. -/
def envFour : Env :=
  { consumerKey := some "ck", consumerSecret := some "cs",
    accessToken := some "tok", accessTokenSecret := some "sec",
    username := none, userId := none }

/-- An environment holding all six fields. -/
def envSix : Env :=
  { consumerKey := some "ck", consumerSecret := some "cs",
    accessToken := some "tok", accessTokenSecret := some "sec",
    username := some "alice", userId := some "12345" }

/-- A sample tweet whose author appears in the referenced-users list. -/
def tweetA : TLTweet := { id := "t1", text := "hi", author_id := "1" }

/-- A sample tweet whose author is absent from the referenced-users list. -/
def tweetB : TLTweet := { id := "t2", text := "yo", author_id := "9" }

/-- The referenced user of `tweetA`. -/
def userA : TLUser := { id := "1", name := "Alice", username := "alice" }

/-- The user returned by the lookup endpoint in the fixtures. -/
def userB : TLUser := { id := "777", name := "Bob", username := "bob" }

/-- An HTTP world answering 201 to every request. -/
def httpAll201 : ApiCall → HttpResponse :=
  fun _ => { status := 201, rawBody := "created" }

/-- An HTTP world answering each endpoint with a well-formed success. -/
def httpOk : ApiCall → HttpResponse
  | .postTweet _ => { status := 201, rawBody := "created" }
  | .usersBy _ => { status := 200, dataUsers := [userB] }
  | .userTweets _ _ => { status := 200, tweets := [tweetA] }
  | .homeTimeline _ _ =>
    { status := 200, tweets := [tweetA, tweetB], includesUsers := [userA] }
  | .likeCreate _ _ => { status := 200, rawBody := "liked" }

/-! Helper lemmas about the user-dict fold of `read_timeline`. -/

/-- Folding over users none of which carries the key leaves the accumulator
unchanged. -/
theorem userFold_no_match (a : String) :
    ∀ (l : List TLUser) (acc : Option TLUser), (∀ u ∈ l, u.id ≠ a) →
      l.foldl (fun acc u => if u.id = a then some u else acc) acc = acc := by
  intro l
  induction l with
  | nil => intro acc _; rfl
  | cons x xs ih =>
    intro acc h
    have hx : x.id ≠ a := h x (List.mem_cons_self x xs)
    have hxs : ∀ u ∈ xs, u.id ≠ a := fun u hu => h u (List.mem_cons_of_mem x hu)
    simp only [List.foldl_cons, if_neg hx]
    exact ih acc hxs

/-- With pairwise-distinct ids, folding finds the unique user carrying the
key, whatever the accumulator. -/
theorem userFold_match (a : String) :
    ∀ (l : List TLUser) (acc : Option TLUser),
      l.Pairwise (fun x y => x.id ≠ y.id) →
      ∀ u ∈ l, u.id = a →
      l.foldl (fun acc u => if u.id = a then some u else acc) acc = some u := by
  intro l
  induction l with
  | nil => intro acc _ u hu; exact absurd hu (List.not_mem_nil u)
  | cons x xs ih =>
    intro acc hpw u hu hid
    have hpw' := (List.pairwise_cons.mp hpw).2
    have hhead := (List.pairwise_cons.mp hpw).1
    rcases List.mem_cons.mp hu with rfl | hu'
    · have hrest : ∀ v ∈ xs, v.id ≠ a := by
        intro v hv
        rw [← hid]
        exact fun hva => (hhead v hv) hva.symm
      simp only [List.foldl_cons, if_pos hid]
      exact userFold_no_match a xs (some u) hrest
    · simp only [List.foldl_cons]
      exact ih _ hpw' u hu' hid

/-- `userDictGet` returns `none` exactly when no user in the list carries
the key. -/
theorem userDictGet_eq_none (users : List TLUser) (a : String)
    (h : ∀ u ∈ users, u.id ≠ a) : userDictGet users a = none :=
  userFold_no_match a users none h

/-- With pairwise-distinct ids, `userDictGet` returns the user carrying the
key. -/
theorem userDictGet_eq_some (users : List TLUser) (a : String)
    (hpw : users.Pairwise (fun x y => x.id ≠ y.id))
    (u : TLUser) (hu : u ∈ users) (hid : u.id = a) :
    userDictGet users a = some u :=
  userFold_match a users none hpw u hu hid

/-! Claim theorems. -/

/-- C1: `post_tweet` rejects any message longer than 280 characters with a
validation error before any network call; given a constructible session,
for a message of length at most 280 it issues exactly one POST to the
tweet-create endpoint, returns the parsed response body on status 201, and
raises a request error on any other status. -/
theorem post_tweet_validates_and_posts (sess : Option OAuthSession)
    (env : Env) (message : String) (http : ApiCall → HttpResponse)
    (hauth : (getOauth sess env).isOk = true) :
    (message.length > 280 →
      post_tweet sess env message http
        = (.error (.valueError "Tweet exceeds 280 character limit"), [])) ∧
    (message.length ≤ 280 →
      (post_tweet sess env message http).2 = [ApiCall.postTweet message] ∧
      ((http (ApiCall.postTweet message)).status = 201 →
        (post_tweet sess env message http).1
          = .ok (http (ApiCall.postTweet message)).rawBody) ∧
      ((http (ApiCall.postTweet message)).status ≠ 201 →
        (post_tweet sess env message http).1
          = .error (.requestError (http (ApiCall.postTweet message)).status
              (http (ApiCall.postTweet message)).text))) := by
  obtain ⟨s, hs⟩ : ∃ s, getOauth sess env = .ok s := by
    cases hg : getOauth sess env with
    | error e => rw [hg] at hauth; simp [Except.isOk, Except.toBool] at hauth
    | ok s => exact ⟨s, rfl⟩
  constructor
  · intro h
    simp [post_tweet, h]
  · intro h
    have h' : ¬ message.length > 280 := by omega
    refine ⟨?_, ?_, ?_⟩
    · by_cases h201 : (http (ApiCall.postTweet message)).status = 201 <;>
        simp [post_tweet, h', hs, h201]
    · intro h201
      simp [post_tweet, h', hs, h201]
    · intro h201
      simp [post_tweet, h', hs, h201]

/-- Witness for C1 at a concrete input. -/
theorem post_tweet_validates_and_posts_witness :
    (post_tweet none envFour "hello" httpAll201).1 = .ok "created" := by
  have h := post_tweet_validates_and_posts none envFour "hello" httpAll201
    (by decide)
  exact (h.2 (by decide)).2.1 (by decide)

/-- When any of the four OAuth secrets is missing, `_get_oauth` with no
cached session raises the missing-credentials `ValueError`. -/
theorem getOauth_none_of_missing (env : Env) (h : fourPresent env = false) :
    getOauth none env
      = .error (.valueError "Missing required Twitter credentials in environment") := by
  simp [getOauth, h]

/-- C2, counterexample: with only the four OAuth secrets stored (username
and user id both absent), `post_tweet` nevertheless succeeds, refuting
"every authenticated call succeeds only if all six credential fields are
present and non-empty". -/
theorem six_field_invariant_counterexample :
    (post_tweet none envFour "hello" httpAll201).1.isOk = true ∧
    truthy envFour.username = false ∧ truthy envFour.userId = false := by
  decide

/-- C2, amended: every authenticated call of a fresh adapter succeeds only
if the four OAuth secrets are present and non-empty; `read_timeline` and
`like_tweet` additionally require a present, non-empty user id; the stored
username and, for `get_latest_tweets` / `post_tweet`, the user id are not
required. -/
theorem credential_requirements_amended (env : Env)
    (username message tweet_id : String) (count : Int)
    (http : ApiCall → HttpResponse) :
    ((get_latest_tweets none env username count http).1.isOk = true →
      fourPresent env = true) ∧
    ((post_tweet none env message http).1.isOk = true →
      fourPresent env = true) ∧
    ((read_timeline none env count http).1.isOk = true →
      fourPresent env = true ∧ truthy env.userId = true) ∧
    ((like_tweet none env tweet_id http).1.isOk = true →
      fourPresent env = true ∧ truthy env.userId = true) := by
  by_cases hf : fourPresent env = true
  · by_cases hu : truthy env.userId = true
    · exact ⟨fun _ => hf, fun _ => hf, fun _ => ⟨hf, hu⟩, fun _ => ⟨hf, hu⟩⟩
    · have hu' : truthy env.userId = false := by simpa using hu
      refine ⟨fun _ => hf, fun _ => hf, ?_, ?_⟩ <;> intro h <;> exfalso <;>
        simp [read_timeline, like_tweet, hu', Except.isOk, Except.toBool] at h
  · have hf' : fourPresent env = false := by simpa using hf
    have hoauth := getOauth_none_of_missing env hf'
    refine ⟨?_, ?_, ?_, ?_⟩ <;> intro h <;> exfalso
    · simp [get_latest_tweets, get_user_id_from_username, hoauth,
        Except.isOk, Except.toBool] at h
    · by_cases hm : message.length > 280 <;>
        simp [post_tweet, hoauth, hm, Except.isOk, Except.toBool] at h
    · by_cases hu : truthy env.userId = false <;>
        simp [read_timeline, hoauth, hu, Except.isOk, Except.toBool] at h
    · by_cases hu : truthy env.userId = false <;>
        simp [like_tweet, hoauth, hu, Except.isOk, Except.toBool] at h

/-- Witness for the amended C2: a concrete environment on which the
`read_timeline` hypothesis holds, so the four secrets and the user id are
present. -/
theorem credential_requirements_amended_witness :
    fourPresent envSix = true ∧ truthy envSix.userId = true := by
  have h := credential_requirements_amended envSix "alice" "hello" "42" 5 httpOk
  exact h.2.2.1 (by decide)

/-- C3: any exception during the request-token, authorize or access-token
steps aborts `configure` before any `set_key` write; moreover every run
terminates either having written nothing or having written exactly the six
credential keys, in the order of the source. -/
theorem configure_no_partial_writes (inp : ConfigureInputs) :
    ((inp.requestTokenStep.isOk = false ∨ inp.authorizeStep.isOk = false ∨
        inp.accessTokenStep.isOk = false) →
      configureWrites inp = []) ∧
    (configureWrites inp = [] ∨
      (configureWrites inp).map Prod.fst = envKeys) := by
  by_cases hg : (inp.alreadyConfigured && !(inp.reconfigureAnswer.toLower == "y")) = true
  · exact ⟨fun _ => by simp [configureWrites, hg], Or.inl (by simp [configureWrites, hg])⟩
  · have hg' : (inp.alreadyConfigured && !(inp.reconfigureAnswer.toLower == "y")) = false := by
      simpa using hg
    rcases hrt : inp.requestTokenStep with e1 | v1
    · exact ⟨fun _ => by simp [configureWrites, hg', hrt],
        Or.inl (by simp [configureWrites, hg', hrt])⟩
    · rcases hau : inp.authorizeStep with e2 | v2
      · exact ⟨fun _ => by simp [configureWrites, hg', hrt, hau],
          Or.inl (by simp [configureWrites, hg', hrt, hau])⟩
      · rcases hat : inp.accessTokenStep with e3 | ts
        · exact ⟨fun _ => by simp [configureWrites, hg', hrt, hau, hat],
            Or.inl (by simp [configureWrites, hg', hrt, hau, hat])⟩
        · obtain ⟨tok, sec⟩ := ts
          constructor
          · intro hbad
            exfalso
            rcases hbad with hbad | hbad | hbad <;>
              simp [hrt, hau, hat, Except.isOk, Except.toBool] at hbad
          · right
            rcases hui : inp.userIdStep with e4 | u <;>
              simp [configureWrites, hg', hrt, hau, hat, hui, envKeys]

/-- A `configure` run whose request-token step fails. -/
def inpAbort : ConfigureInputs :=
  { alreadyConfigured := false, reconfigureAnswer := "",
    username := "alice", consumerKey := "ck", consumerSecret := "cs",
    requestTokenStep := .error (.valueError "bad consumer key"),
    authorizeStep := .ok "1234567",
    accessTokenStep := .ok ("tok", "sec"),
    userIdStep := .ok "12345" }

/-- Witness for C3: the aborted run writes nothing. -/
theorem configure_no_partial_writes_witness : configureWrites inpAbort = [] :=
  (configure_no_partial_writes inpAbort).1 (Or.inl (by decide))

/-- C8: when the user-id lookup fails during `configure`, the flow does not
abort: the raw username is substituted for the user id and all six fields
are still persisted. -/
theorem configure_username_fallback (inp : ConfigureInputs)
    (tok sec : String) (e : PyError)
    (hgate : (inp.alreadyConfigured && !(inp.reconfigureAnswer.toLower == "y")) = false)
    (hrt : inp.requestTokenStep.isOk = true)
    (hau : inp.authorizeStep.isOk = true)
    (hat : inp.accessTokenStep = .ok (tok, sec))
    (hui : inp.userIdStep = .error e) :
    configureWrites inp =
      [("TWITTER_USERNAME", inp.username),
       ("TWITTER_USER_ID", inp.username),
       ("TWITTER_CONSUMER_KEY", inp.consumerKey),
       ("TWITTER_CONSUMER_SECRET", inp.consumerSecret),
       ("TWITTER_ACCESS_TOKEN", tok),
       ("TWITTER_ACCESS_TOKEN_SECRET", sec)] := by
  rcases hrt' : inp.requestTokenStep with e1 | v1
  · rw [hrt'] at hrt; simp [Except.isOk, Except.toBool] at hrt
  · rcases hau' : inp.authorizeStep with e2 | v2
    · rw [hau'] at hau; simp [Except.isOk, Except.toBool] at hau
    · simp [configureWrites, hgate, hrt', hau', hat, hui]

/-- A `configure` run whose user-id lookup fails after a successful OAuth
handshake. -/
def inpFallback : ConfigureInputs :=
  { alreadyConfigured := false, reconfigureAnswer := "",
    username := "alice", consumerKey := "ck", consumerSecret := "cs",
    requestTokenStep := .ok ("rk", "rs"),
    authorizeStep := .ok "1234567",
    accessTokenStep := .ok ("tok", "sec"),
    userIdStep := .error (.noUserFound "alice") }

/-- Witness for C8 at the concrete fallback run. -/
theorem configure_username_fallback_witness :
    configureWrites inpFallback =
      [("TWITTER_USERNAME", "alice"), ("TWITTER_USER_ID", "alice"),
       ("TWITTER_CONSUMER_KEY", "ck"), ("TWITTER_CONSUMER_SECRET", "cs"),
       ("TWITTER_ACCESS_TOKEN", "tok"), ("TWITTER_ACCESS_TOKEN_SECRET", "sec")] :=
  configure_username_fallback inpFallback "tok" "sec" (.noUserFound "alice")
    (by decide) (by decide) (by decide) (by decide) (by decide)

/-- C4: every user-tweets request issued by `get_latest_tweets` carries
`max_results = min(count, 100)`, so at most 100 results are requested
regardless of a larger input. -/
theorem get_latest_tweets_caps_count (sess : Option OAuthSession) (env : Env)
    (username : String) (count : Int) (http : ApiCall → HttpResponse)
    (uid : String) (mr : Int)
    (hmem : ApiCall.userTweets uid mr
      ∈ (get_latest_tweets sess env username count http).2) :
    mr = min count 100 := by
  unfold get_latest_tweets get_user_id_from_username at hmem
  rcases hg : getOauth sess env with e | s
  · rw [hg] at hmem
    simp at hmem
  · rw [hg] at hmem
    by_cases hst : (http (ApiCall.usersBy username)).status = 200
    · rcases hd : (http (ApiCall.usersBy username)).dataUsers with _ | ⟨u0, rest⟩
      · simp [hst, hd] at hmem
      · by_cases h2 : (http (ApiCall.userTweets u0.id (min count 100))).status = 200 <;>
          · simp [hst, hd, h2] at hmem
            exact hmem.2
    · simp [hst] at hmem

/-- Witness for C4: a request with `count = 250` is capped to 100. -/
theorem get_latest_tweets_caps_count_witness : (100 : Int) = min 250 100 :=
  get_latest_tweets_caps_count none envFour "bob" 250 httpOk "777" 100 (by decide)

/-- C5: on a successful home-timeline fetch, `read_timeline` returns the
tweets joined with their authors: a tweet whose author id is absent from
the referenced-users list carries `"Unknown"` for both author fields, and
(ids in that list being pairwise distinct) a tweet whose author id is
present carries that user's display name and handle. -/
theorem read_timeline_author_join (env : Env) (count : Int)
    (http : ApiCall → HttpResponse)
    (huid : truthy env.userId = true) (hcred : fourPresent env = true)
    (hstatus : (http (ApiCall.homeTimeline (env.userId.getD "") count)).status = 200)
    (hdistinct : (http (ApiCall.homeTimeline (env.userId.getD "") count)).includesUsers.Pairwise
      (fun x y => x.id ≠ y.id)) :
    (read_timeline none env count http).1
      = .ok ((http (ApiCall.homeTimeline (env.userId.getD "") count)).tweets.map
          (annotateTweet (http (ApiCall.homeTimeline (env.userId.getD "") count)).includesUsers)) ∧
    ∀ t ∈ (http (ApiCall.homeTimeline (env.userId.getD "") count)).tweets,
      ((∀ u ∈ (http (ApiCall.homeTimeline (env.userId.getD "") count)).includesUsers,
          u.id ≠ t.author_id) →
        annotateTweet (http (ApiCall.homeTimeline (env.userId.getD "") count)).includesUsers t
          = { tweet := t, author_name := "Unknown", author_username := "Unknown" }) ∧
      (∀ u ∈ (http (ApiCall.homeTimeline (env.userId.getD "") count)).includesUsers,
        u.id = t.author_id →
        annotateTweet (http (ApiCall.homeTimeline (env.userId.getD "") count)).includesUsers t
          = { tweet := t, author_name := u.name, author_username := u.username }) := by
  constructor
  · simp [read_timeline, huid, getOauth, hcred, hstatus]
  · intro t _
    constructor
    · intro habs
      simp [annotateTweet, userDictGet_eq_none _ _ habs]
    · intro u hu hid
      simp [annotateTweet, userDictGet_eq_some _ _ hdistinct u hu hid]

/-- Witness for C5: a timeline with one referenced author and one
unreferenced author, joined concretely. -/
theorem read_timeline_author_join_witness :
    (read_timeline none envSix 5 httpOk).1
      = .ok [{ tweet := tweetA, author_name := "Alice", author_username := "alice" },
             { tweet := tweetB, author_name := "Unknown", author_username := "Unknown" }] := by
  have h := read_timeline_author_join envSix 5 httpOk (by decide) (by decide)
    (by decide) (by simp [httpOk])
  rw [h.1]
  decide

/-- C6: `is_configured` is total into `Bool` (it never propagates an
exception): it returns `false` whenever one of the five required fields is
missing or empty or the live validation call fails, and it returns `true`
only when the `.env` file exists, all five fields are present and non-empty
and the validation call succeeds. -/
theorem is_configured_returns_bool (fileExists : Bool) (env : Env)
    (getMe : Except PyError Unit) :
    ((truthy env.consumerKey = false ∨ truthy env.consumerSecret = false ∨
        truthy env.accessToken = false ∨ truthy env.accessTokenSecret = false ∨
        truthy env.userId = false) →
      (is_configured fileExists env getMe).1 = false) ∧
    (getMe.isOk = false → (is_configured fileExists env getMe).1 = false) ∧
    ((is_configured fileExists env getMe).1 = true →
      fileExists = true ∧ truthy env.consumerKey = true ∧
      truthy env.consumerSecret = true ∧ truthy env.accessToken = true ∧
      truthy env.accessTokenSecret = true ∧ truthy env.userId = true ∧
      getMe.isOk = true) := by
  cases fileExists with
  | false => simp [is_configured]
  | true =>
    by_cases hall : (truthy env.consumerKey && truthy env.consumerSecret &&
        truthy env.accessToken && truthy env.accessTokenSecret &&
        truthy env.userId) = true
    · have h5 := hall
      simp only [Bool.and_eq_true] at h5
      obtain ⟨⟨⟨⟨h1, h2⟩, h3⟩, h4⟩, h5'⟩ := h5
      cases hgm : getMe with
      | error e =>
        refine ⟨fun _ => ?_, fun _ => ?_, fun habs => ?_⟩
        · simp [is_configured, hall, hgm]
        · simp [is_configured, hall, hgm]
        · exfalso; simp [is_configured, hall, hgm] at habs
      | ok u =>
        refine ⟨?_, ?_, ?_⟩
        · intro hmiss
          exfalso
          rcases hmiss with h | h | h | h | h <;> simp_all
        · intro hok
          exfalso
          simp [Except.isOk, Except.toBool] at hok
        · intro _
          exact ⟨rfl, h1, h2, h3, h4, h5', rfl⟩
    · have hall' : (truthy env.consumerKey && truthy env.consumerSecret &&
          truthy env.accessToken && truthy env.accessTokenSecret &&
          truthy env.userId) = false := by simpa using hall
      refine ⟨fun _ => ?_, fun _ => ?_, fun habs => ?_⟩
      · simp [is_configured, hall']
      · simp [is_configured, hall']
      · exfalso; simp [is_configured, hall'] at habs

/-- An environment whose consumer secret is missing. -/
def envMissing : Env :=
  { consumerKey := some "ck", consumerSecret := none,
    accessToken := some "tok", accessTokenSecret := some "sec",
    username := some "alice", userId := some "12345" }

/-- Witness for C6: one missing field forces `false` even though the
validation call would succeed. -/
theorem is_configured_returns_bool_witness :
    (is_configured true envMissing (.ok ())).1 = false :=
  (is_configured_returns_bool true envMissing (.ok ())).1
    (Or.inr (Or.inl (by decide)))

/-- C7: `perform_action` with a name outside the registry raises
`Unknown action` and issues no network call; with a registered name it
invokes that name's handler on the given keyword arguments (`count`
defaulting to 10). -/
theorem perform_action_dispatch (sess : Option OAuthSession) (env : Env)
    (kw : Kwargs) (http : ApiCall → HttpResponse) (name : String)
    (u m t : String) :
    (name ∉ actionNames →
      perform_action sess env name kw http = (.error (.unknownAction name), [])) ∧
    (kw.username = some u →
      perform_action sess env "get-latest-tweets" kw http
        = liftResult ActionResult.tweets
            (get_latest_tweets sess env u (kw.count.getD 10) http)) ∧
    (kw.message = some m →
      perform_action sess env "post-tweet" kw http
        = liftResult ActionResult.raw (post_tweet sess env m http)) ∧
    (perform_action sess env "read-timeline" kw http
        = liftResult ActionResult.timeline
            (read_timeline sess env (kw.count.getD 10) http)) ∧
    (kw.tweet_id = some t →
      perform_action sess env "like-tweet" kw http
        = liftResult ActionResult.raw (like_tweet sess env t http)) := by
  refine ⟨?_, ?_, ?_, ?_, ?_⟩
  · intro hn
    simp [actionNames] at hn
    obtain ⟨h1, h2, h3, h4⟩ := hn
    simp [perform_action, h1, h2, h3, h4]
  · intro h; simp [perform_action, h]
  · intro h; simp [perform_action, h]
  · simp [perform_action]
  · intro h; simp [perform_action, h]

/-- Keyword arguments carrying every possible key. -/
def kwFull : Kwargs :=
  { username := some "bob", count := some 3,
    message := some "hello", tweet_id := some "42" }

/-- Witness for C7: an unregistered name fails with no network call. -/
theorem perform_action_dispatch_witness :
    perform_action none envFour "delete-tweet" kwFull httpOk
      = (.error (.unknownAction "delete-tweet"), []) :=
  (perform_action_dispatch none envFour kwFull httpOk "delete-tweet"
    "bob" "hello" "42").1 (by decide)

/-- C9: when the `.env` file does not exist, `is_configured` returns
`false` at once, with no credential field read and no validation call
issued (its event trace is empty). -/
theorem is_configured_missing_env_file (env : Env)
    (getMe : Except PyError Unit) :
    is_configured false env getMe = (false, []) := rfl

/-- C10: `read_timeline` does not cap the requested count: whenever the
user id and the OAuth secrets are stored, it issues exactly one
home-timeline request with `max_results = count` unchanged. -/
theorem read_timeline_uncapped_count (env : Env) (count : Int)
    (http : ApiCall → HttpResponse)
    (huid : truthy env.userId = true) (hcred : fourPresent env = true) :
    (read_timeline none env count http).2
      = [ApiCall.homeTimeline (env.userId.getD "") count] := by
  by_cases hst : (http (ApiCall.homeTimeline (env.userId.getD "") count)).status = 200 <;>
    simp [read_timeline, huid, getOauth, hcred, hst]

/-- Witness for C10: a request with `count = 250` is passed through
uncapped. -/
theorem read_timeline_uncapped_count_witness :
    (read_timeline none envSix 250 httpOk).2
      = [ApiCall.homeTimeline "12345" 250] :=
  read_timeline_uncapped_count envSix 250 httpOk (by decide) (by decide)

end Twitter
